import Mathlib

/-!
Verification of the beat-polymarket core pipeline.

This file shallowly embeds the two source modules:

* `payout_calc.py` — the calibration and decision engine (`evaluate_market`
  together with its helpers `_as_prob` and the inline calibration / EV /
  payout steps);
* `pull_30day.py` — the market classifier and quote-resolution cascade
  (`_coerce_outcomes`, `parse_token_ids`, `is_binary_yes_no`,
  `summarize_binary_market`).

Modelling conventions:

* Python floats are modelled as rationals (`ℚ`); the numeric literals of the
  source (`0.5`, `1e-6`, …) become the corresponding rationals.
* Python's `round(x, n)` (round-half-to-even on the scaled value) is modelled
  by `pyround`.
* Python exceptions are modelled with `Except String`; in particular the
  division operator, which raises `ZeroDivisionError` on a zero denominator,
  is modelled by `pydiv`.
* Python string methods `.lower()`, `.strip()`, `.capitalize()` are modelled
  structurally over the character list of the string (`lowerStr`, `pystrip`,
  `pycapitalize`).
* The network call `fetch_prices_single` of `pull_30day.py` is an external
  effect; it enters the embedding as an explicit oracle parameter
  `fetch_single : String → Quotes`, and the raw market-record fields that
  reach `summarize_binary_market` are taken in their structured
  (already-decoded) form: a native list of labels / token ids or an absent
  field.  The CSV/JSON string re-encodings accepted by the Python parsers
  are an input-boundary concern and are outside the embedded domain.
-/

namespace BeatPolymarket

/-! ## payout_calc.py -/

/-- `Config` dataclass of `payout_calc.py`. -/
structure Config where
  majority_accuracy : ℚ := 9/10
  min_ev : ℚ := 0
  fee_rate : ℚ := 0
deriving DecidableEq

/-- `_as_prob`: accept 0–1 or 0–100 and normalize to 0–1
(`return x / 100.0 if x > 1 else x`). -/
def as_prob (x : ℚ) : ℚ := if x > 1 then x / 100 else x

/-- Python's `round` to an integer: round half to even. -/
def roundHalfEven (y : ℚ) : ℤ :=
  if y - (⌊y⌋ : ℚ) < 1/2 then ⌊y⌋
  else if (1/2 : ℚ) < y - (⌊y⌋ : ℚ) then ⌊y⌋ + 1
  else if ⌊y⌋ % 2 = 0 then ⌊y⌋ else ⌊y⌋ + 1

/-- Python's `round(x, n)`. -/
def pyround (x : ℚ) (n : ℕ) : ℚ := (roundHalfEven (x * 10 ^ n) : ℚ) / 10 ^ n

/-- Lines 33–36 of `payout_calc.py`: normalize `yes_pct`/`no_pct` and force
the pair consistent when it deviates from summing to 1 by more than `1e-6`. -/
def normProbs (yes_pct : ℚ) (no_pct : Option ℚ) : ℚ × ℚ :=
  let p_yes := as_prob yes_pct
  let p_no := match no_pct with
    | Option.none => 1 - p_yes
    | Option.some n => as_prob n
  if |p_yes + p_no - 1| > 1/1000000 then (p_yes, 1 - p_yes) else (p_yes, p_no)

/-- Lines 38–44 of `payout_calc.py`: the calibration step of
`evaluate_market` (majority-rule heuristic). -/
def calibrate (p_yes p_no majority_accuracy : ℚ) : ℚ :=
  if p_yes > p_no then majority_accuracy
  else if p_yes < p_no then 1 - majority_accuracy
  else 1/2

/-- `ev_per_yes` (line 47) as a function of the raw inputs. -/
def ev_yes_of (yes_pct : ℚ) (no_pct : Option ℚ) (cfg : Config) : ℚ :=
  calibrate (normProbs yes_pct no_pct).1 (normProbs yes_pct no_pct).2 cfg.majority_accuracy
    - (normProbs yes_pct no_pct).1

/-- `ev_per_no` (line 48) as a function of the raw inputs. -/
def ev_no_of (yes_pct : ℚ) (no_pct : Option ℚ) (cfg : Config) : ℚ :=
  (1 - calibrate (normProbs yes_pct no_pct).1 (normProbs yes_pct no_pct).2 cfg.majority_accuracy)
    - (normProbs yes_pct no_pct).2

/-- Python division, which raises `ZeroDivisionError` on a zero denominator. -/
def pydiv (a b : ℚ) : Except String ℚ :=
  if b = 0 then Except.error "ZeroDivisionError" else Except.ok (a / b)

/-- The guarded share computation of lines 65 and 76:
`stake / c if c > 0 else 0.0`. -/
def sharesExpr (stake c : ℚ) : Except String ℚ :=
  if c > 0 then pydiv stake c else Except.ok 0

/-- The result dictionary built at lines 83–96 of `payout_calc.py`. -/
structure EvalResult where
  question : String
  p_yes_market : ℚ
  p_no_market : ℚ
  q_yes_calibrated : ℚ
  side : String
  stake : ℚ
  chosen_price : Option ℚ
  win_prob_of_chosen : Option ℚ
  ev_per_dollar : ℚ
  ev_dollars : ℚ
  win_payout_if_correct : ℚ
  lose_payout_if_wrong : ℚ
deriving DecidableEq

/-- `evaluate_market` of `payout_calc.py` (lines 30–96). -/
def evaluate_market (question : String) (yes_pct : ℚ) (no_pct : Option ℚ)
    (stake : ℚ) (cfg : Config) : Except String EvalResult :=
  let p_yes := (normProbs yes_pct no_pct).1
  let p_no := (normProbs yes_pct no_pct).2
  let q_yes := calibrate p_yes p_no cfg.majority_accuracy
  let ev_per_yes := q_yes - p_yes
  let ev_per_no := (1 - q_yes) - p_no
  if ev_per_yes < cfg.min_ev ∧ ev_per_no < cfg.min_ev then
    Except.ok
      { question := question
        p_yes_market := pyround p_yes 4
        p_no_market := pyround p_no 4
        q_yes_calibrated := pyround q_yes 4
        side := "HOLD"
        stake := pyround stake 2
        chosen_price := Option.none
        win_prob_of_chosen := Option.none
        ev_per_dollar := 0
        ev_dollars := pyround 0 2
        win_payout_if_correct := pyround 0 2
        lose_payout_if_wrong := pyround 0 2 }
  else if ev_per_yes ≥ ev_per_no then
    (sharesExpr stake p_yes).map (fun shares =>
      let gross_win_payout := shares * 1
      let fee := cfg.fee_rate * (gross_win_payout - stake)
      let win_payout := gross_win_payout - fee
      let lose_payout : ℚ := 0
      let ev_dollars := q_yes * win_payout + (1 - q_yes) * lose_payout - stake
      { question := question
        p_yes_market := pyround p_yes 4
        p_no_market := pyround p_no 4
        q_yes_calibrated := pyround q_yes 4
        side := "YES"
        stake := pyround stake 2
        chosen_price := Option.some (pyround p_yes 4)
        win_prob_of_chosen := Option.some (pyround q_yes 4)
        ev_per_dollar := pyround (max ev_per_yes ev_per_no) 4
        ev_dollars := pyround ev_dollars 2
        win_payout_if_correct := pyround win_payout 2
        lose_payout_if_wrong := pyround lose_payout 2 })
  else
    (sharesExpr stake p_no).map (fun shares =>
      let gross_win_payout := shares * 1
      let fee := cfg.fee_rate * (gross_win_payout - stake)
      let win_payout := gross_win_payout - fee
      let lose_payout : ℚ := 0
      let chosen_q_win := 1 - q_yes
      let ev_dollars := chosen_q_win * win_payout + (1 - chosen_q_win) * lose_payout - stake
      { question := question
        p_yes_market := pyround p_yes 4
        p_no_market := pyround p_no 4
        q_yes_calibrated := pyround q_yes 4
        side := "NO"
        stake := pyround stake 2
        chosen_price := Option.some (pyround p_no 4)
        win_prob_of_chosen := Option.some (pyround chosen_q_win 4)
        ev_per_dollar := pyround (max ev_per_yes ev_per_no) 4
        ev_dollars := pyround ev_dollars 2
        win_payout_if_correct := pyround win_payout 2
        lose_payout_if_wrong := pyround lose_payout 2 })

/-! ## pull_30day.py -/

/-- Python `str.lower()`, modelled structurally. -/
def lowerStr (s : String) : String := String.mk (s.data.map Char.toLower)

/-- Python `str.strip()`, modelled structurally. -/
def pystrip (s : String) : String :=
  String.mk (((s.data.dropWhile Char.isWhitespace).reverse.dropWhile Char.isWhitespace).reverse)

/-- Python `str.capitalize()`: first character upper-cased, rest lower-cased. -/
def pycapitalize (s : String) : String :=
  match s.data with
  | [] => ""
  | c :: cs => String.mk (Char.toUpper c :: cs.map Char.toLower)

/-- `YES_ALIASES` of `pull_30day.py`. -/
def YES_ALIASES : List String := ["yes", "y", "true", "1"]

/-- `NO_ALIASES` of `pull_30day.py`. -/
def NO_ALIASES : List String := ["no", "n", "false", "0"]

/-- A quote triple as returned per token id (`BUY`/`SELL`/`MID`), each
possibly absent. -/
structure Quotes where
  buy : Option ℚ := Option.none
  sell : Option ℚ := Option.none
  mid : Option ℚ := Option.none
deriving DecidableEq

/-- The empty quote triple (Python `{}` default of `price_map.get`). -/
def Quotes.empty : Quotes := {}

/-- The market-record fields read by `is_binary_yes_no` and
`summarize_binary_market`, in structured form (the CSV/JSON string
re-encodings accepted by the Python parsers are decoded at the input
boundary; an unparseable field arrives as `Option.none`). -/
structure MarketRec where
  id : Option String := Option.none
  slug : Option String := Option.none
  question : Option String := Option.none
  category : Option String := Option.none
  endDate : Option String := Option.none
  outcomes : Option (List String) := Option.none
  clobTokenIds : Option (List String) := Option.none
  outcomePrices : Option (List ℚ) := Option.none
  bestBid : Option ℚ := Option.none
  bestAsk : Option ℚ := Option.none

/-- `_coerce_outcomes` (lines 73–91): strip each label, drop empties,
require exactly two, capitalize. -/
def coerce_outcomes (raw : Option (List String)) : Option (List String) :=
  match raw with
  | Option.none => Option.none
  | Option.some xs =>
    let outs := (xs.map pystrip).filter (fun s => s ≠ "")
    if outs.length ≠ 2 then Option.none else Option.some (outs.map pycapitalize)

/-- `is_binary_yes_no` (lines 108–114). -/
def is_binary_yes_no (m : MarketRec) : Bool :=
  match coerce_outcomes m.outcomes with
  | Option.none => false
  | Option.some outs =>
    match outs with
    | [a, b] =>
      let isY := fun (x : String) => YES_ALIASES.contains (lowerStr x) || lowerStr x == "yes"
      let isN := fun (x : String) => NO_ALIASES.contains (lowerStr x) || lowerStr x == "no"
      (isY a && isN b) || (isY b && isN a)
    | _ => false

/-- `parse_token_ids` (lines 119–122) on the structured domain: an absent
field gives no identifiers. -/
def parse_token_ids (raw : Option (List String)) : List String :=
  match raw with
  | Option.none => []
  | Option.some xs => xs

/-- Lines 223–233 of `summarize_binary_market`: coerce the outcome labels
(defaulting to `["Yes", "No"]`), keep at most two token ids, and swap both
labels and ids when the labels are literally `[No, Yes]`. -/
def canonical_outs_tids (m : MarketRec) : List String × List String :=
  let outs := (coerce_outcomes m.outcomes).getD ["Yes", "No"]
  let tids := parse_token_ids m.clobTokenIds
  let tids := if tids.length ≥ 2 then tids.take 2 else tids
  match outs, tids with
  | [a, b], [t1, t2] =>
    if lowerStr a = "no" ∧ lowerStr b = "yes" then ([b, a], [t2, t1]) else ([a, b], [t1, t2])
  | o, t => (o, t)

/-- The guard of line 242: the single-quote fetcher for the Yes identifier
runs iff that identifier exists and the bulk quotes hold none of BUY, SELL,
MID for it. -/
def yes_single_fetch_triggered (m : MarketRec) (price_map : List (String × Quotes)) : Bool :=
  let tids := (canonical_outs_tids m).2
  match tids[0]? with
  | Option.some t =>
    let p_yes := (price_map.lookup t).getD Quotes.empty
    p_yes.buy.isNone && p_yes.sell.isNone && p_yes.mid.isNone
  | Option.none => false

/-- The summary dictionary built at lines 290–301. -/
structure Summary where
  id : Option String
  slug : Option String
  question : Option String
  category : Option String
  endDate : Option String
  binary : Bool
  yes_token_id : Option String
  yes_best_buy : Option ℚ
  yes_best_sell : Option ℚ
  no_token_id : Option String
  no_best_buy : Option ℚ
  no_best_sell : Option ℚ
  q_yes_mid : Option ℚ
  majority_side : Option String
deriving DecidableEq

/-- `summarize_binary_market` (lines 220–301).  The external single-token
quote fetch (`fetch_prices_single`, an HTTP call) enters as the oracle
parameter `fetch_single`; the bulk price map is the association list
`price_map`. -/
def summarize_binary_market (m : MarketRec) (price_map : List (String × Quotes))
    (fetch_single : String → Quotes) : Summary :=
  let outs := (canonical_outs_tids m).1
  let tids := (canonical_outs_tids m).2
  let yes_tid := tids[0]?
  let no_tid := tids[1]?
  let p_yes := match yes_tid with
    | Option.some t => (price_map.lookup t).getD Quotes.empty
    | Option.none => Quotes.empty
  let p_no := match no_tid with
    | Option.some t => (price_map.lookup t).getD Quotes.empty
    | Option.none => Quotes.empty
  let p_yes := match yes_tid with
    | Option.some t =>
      if p_yes.buy = Option.none ∧ p_yes.sell = Option.none ∧ p_yes.mid = Option.none then
        fetch_single t
      else p_yes
    | Option.none => p_yes
  let p_no := match no_tid with
    | Option.some t =>
      if p_no.buy = Option.none ∧ p_no.sell = Option.none ∧ p_no.mid = Option.none then
        fetch_single t
      else p_no
    | Option.none => p_no
  let q1 : Option ℚ :=
    match p_yes.mid, p_yes.buy, p_yes.sell with
    | Option.some ym, _, _ => Option.some ym
    | Option.none, Option.some b, Option.some s => Option.some ((1/2) * (b + s))
    | Option.none, Option.some b, Option.none => Option.some b
    | Option.none, Option.none, _ => Option.none
  let q2 : Option ℚ :=
    match q1, p_no.mid with
    | Option.none, Option.some nm => Option.some (1 - nm)
    | q, _ => q
  let q_yes_mid : Option ℚ :=
    match q2 with
    | Option.some q => Option.some q
    | Option.none =>
      match m.outcomePrices with
      | Option.some op =>
        if op.length ≥ 2 then
          let yes_idx : Nat :=
            if outs ≠ [] ∧ (outs[0]?).map lowerStr = Option.some "yes" then 0
            else if outs ≠ [] ∧ outs.length > 1 ∧ (outs[1]?).map lowerStr = Option.some "yes" then 1
            else 0
          op[yes_idx]?
        else
          match m.bestBid, m.bestAsk with
          | Option.some bb, Option.some ba => Option.some ((1/2) * (bb + ba))
          | _, _ => Option.none
      | Option.none =>
        match m.bestBid, m.bestAsk with
        | Option.some bb, Option.some ba => Option.some ((1/2) * (bb + ba))
        | _, _ => Option.none
  let majority_side : Option String :=
    match q_yes_mid with
    | Option.some q => if q ≥ 1/2 then Option.some "YES" else Option.some "NO"
    | Option.none => Option.none
  { id := m.id, slug := m.slug, question := m.question, category := m.category,
    endDate := m.endDate, binary := true,
    yes_token_id := yes_tid, yes_best_buy := p_yes.buy, yes_best_sell := p_yes.sell,
    no_token_id := no_tid, no_best_buy := p_no.buy, no_best_sell := p_no.sell,
    q_yes_mid := q_yes_mid, majority_side := majority_side }

/-- Binary-eligible record whose labels use the short aliases, No-like
first; used against C6. -/
def mAliasNY : MarketRec :=
  { outcomes := Option.some ["N", "Y"], clobTokenIds := Option.some ["tokA", "tokB"] }

/-- Market with literal Yes/No labels and two token ids, used for C3. -/
def mQuoteCascade : MarketRec :=
  { outcomes := Option.some ["Yes", "No"], clobTokenIds := Option.some ["ytok", "ntok"] }

/-- Bulk quotes holding only a No-side midpoint of 0.3. -/
def bulkNoMidOnly : List (String × Quotes) :=
  [("ntok", { mid := Option.some (3/10) })]

/-- A single-quote fetcher that returns a Yes midpoint of 0.9. -/
def fetchYesMid : String → Quotes :=
  fun t => if t = "ytok" then { mid := Option.some (9/10) } else Quotes.empty

/-! ## Theorems -/

/-- The BUY field of the empty quote triple is absent. -/
theorem Quotes.empty_buy : Quotes.empty.buy = Option.none := rfl

/-- The SELL field of the empty quote triple is absent. -/
theorem Quotes.empty_sell : Quotes.empty.sell = Option.none := rfl

/-- The MID field of the empty quote triple is absent. -/
theorem Quotes.empty_mid : Quotes.empty.mid = Option.none := rfl

/-- The share computation never raises: the division is guarded by `c > 0`. -/
theorem sharesExpr_eq_ok (stake c : ℚ) :
    sharesExpr stake c = Except.ok (if c > 0 then stake / c else 0) := by
  unfold sharesExpr pydiv
  split_ifs with h1 h2
  · exact absurd h2 (ne_of_gt h1)
  · rfl
  · rfl

/-- C1: for every pair of normalized market-implied probabilities
`(p_yes, p_no)` and every `majority_accuracy`, the calibration step of
`evaluate_market` returns `majority_accuracy` when `p_yes > p_no`,
`1 - majority_accuracy` when `p_yes < p_no`, and exactly `1/2` when
`p_yes = p_no`. -/
theorem calibrate_majority_rule (p_yes p_no macc : ℚ) :
    (p_yes > p_no → calibrate p_yes p_no macc = macc) ∧
    (p_yes < p_no → calibrate p_yes p_no macc = 1 - macc) ∧
    (p_yes = p_no → calibrate p_yes p_no macc = 1/2) := by
  unfold calibrate
  refine ⟨fun h => ?_, fun h => ?_, fun h => ?_⟩
  · rw [if_pos h]
  · rw [if_neg (not_lt.mpr h.le), if_pos h]
  · rw [if_neg (not_lt.mpr h.ge), if_neg (not_lt.mpr h.le)]

/-- Witness for C1 at concrete inputs. -/
theorem calibrate_majority_rule_witness :
    calibrate (62/100) (38/100) (9/10) = 9/10 ∧
    calibrate (38/100) (62/100) (9/10) = 1 - 9/10 ∧
    calibrate (1/2) (1/2) (9/10) = 1/2 :=
  ⟨(calibrate_majority_rule (62/100) (38/100) (9/10)).1 (by norm_num),
   (calibrate_majority_rule (38/100) (62/100) (9/10)).2.1 (by norm_num),
   (calibrate_majority_rule (1/2) (1/2) (9/10)).2.2 (by norm_num)⟩

/-- Rounding zero gives zero at any precision. -/
theorem pyround_zero (n : ℕ) : pyround 0 n = 0 := by
  norm_num [pyround, roundHalfEven]

/-- C2 counterexample: at `yes_pct = 62`, `no_pct` absent, `stake = 100`,
`majority_accuracy = 0.90`, `fee_rate = 0`, `min_ev = 0`, `evaluate_market`
picks side YES at price 0.62 with win payout 161.29, but its expected value
in dollars is 45.16 — not the 55.16 the claim states. -/
theorem evaluate_market_example1_ev_counterexample :
    (evaluate_market "q" 62 Option.none 100 ⟨9/10, 0, 0⟩).map
        (fun r => (r.side, r.chosen_price, r.win_payout_if_correct, r.ev_dollars))
      = Except.ok ("YES", Option.some (62/100), 16129/100, 4516/100) ∧
    (4516/100 : ℚ) ≠ 5516/100 := by
  constructor
  · norm_num [evaluate_market, normProbs, as_prob, calibrate, sharesExpr_eq_ok, Except.map,
      pyround, roundHalfEven]
  · norm_num

/-- C2 (amended): at `yes_pct = 62`, `no_pct` absent, `stake = 100`,
`majority_accuracy = 0.90`, `fee_rate = 0`, `min_ev = 0`, `evaluate_market`
returns side YES with calibrated probability 0.90, chosen price 0.62,
win payout 161.29 and expected value 45.16 dollars. -/
theorem evaluate_market_example1_values :
    (evaluate_market "q" 62 Option.none 100 ⟨9/10, 0, 0⟩).map
        (fun r => (r.side, r.q_yes_calibrated, r.chosen_price,
                   r.win_payout_if_correct, r.ev_dollars))
      = Except.ok ("YES", 9/10, Option.some (62/100), 16129/100, 4516/100) := by
  norm_num [evaluate_market, normProbs, as_prob, calibrate, sharesExpr_eq_ok, Except.map,
    pyround, roundHalfEven]

/-- C4: whenever both per-dollar EVs fall strictly below `cfg.min_ev`,
`evaluate_market` returns side HOLD with EV in dollars 0, win payout 0 and
lose payout 0. -/
theorem evaluate_market_hold_when_both_below_min (question : String) (yes_pct : ℚ)
    (no_pct : Option ℚ) (stake : ℚ) (cfg : Config)
    (hY : ev_yes_of yes_pct no_pct cfg < cfg.min_ev)
    (hN : ev_no_of yes_pct no_pct cfg < cfg.min_ev) :
    (evaluate_market question yes_pct no_pct stake cfg).map
        (fun r => (r.side, r.ev_dollars, r.win_payout_if_correct, r.lose_payout_if_wrong))
      = Except.ok ("HOLD", 0, 0, 0) := by
  unfold ev_yes_of at hY
  unfold ev_no_of at hN
  simp only [evaluate_market]
  rw [if_pos ⟨hY, hN⟩]
  simp [Except.map, pyround_zero]

/-- Witness for C4: with `min_ev = 1` both EVs (0.28 and −0.28) are below the
threshold and the decision is HOLD. -/
theorem evaluate_market_hold_when_both_below_min_witness :
    (evaluate_market "q" 62 Option.none 100 ⟨9/10, 1, 0⟩).map
        (fun r => (r.side, r.ev_dollars, r.win_payout_if_correct, r.lose_payout_if_wrong))
      = Except.ok ("HOLD", 0, 0, 0) :=
  evaluate_market_hold_when_both_below_min "q" 62 Option.none 100 ⟨9/10, 1, 0⟩
    (by norm_num [ev_yes_of, normProbs, as_prob, calibrate])
    (by norm_num [ev_no_of, normProbs, as_prob, calibrate])

/-- C5: when the decision is not HOLD and the two per-dollar EVs are equal,
`evaluate_market` selects side YES (the `ev_per_yes >= ev_per_no` comparison
favours Yes). -/
theorem evaluate_market_tie_break_selects_yes (question : String) (yes_pct : ℚ)
    (no_pct : Option ℚ) (stake : ℚ) (cfg : Config)
    (hnot : ¬(ev_yes_of yes_pct no_pct cfg < cfg.min_ev ∧
              ev_no_of yes_pct no_pct cfg < cfg.min_ev))
    (heq : ev_yes_of yes_pct no_pct cfg = ev_no_of yes_pct no_pct cfg) :
    (evaluate_market question yes_pct no_pct stake cfg).map EvalResult.side
      = Except.ok "YES" := by
  unfold ev_yes_of ev_no_of at hnot heq
  simp only [evaluate_market]
  rw [if_neg hnot, if_pos heq.ge]
  rw [sharesExpr_eq_ok]
  simp [Except.map]

/-- Witness for C5: `yes_pct = 50`, `no_pct = 50`, `stake = 10`, `min_ev = 0`
gives the exact tie (both EVs 0) and the side resolves to YES. -/
theorem evaluate_market_tie_break_selects_yes_witness :
    (evaluate_market "q" 50 (Option.some 50) 10 ⟨9/10, 0, 0⟩).map EvalResult.side
      = Except.ok "YES" :=
  evaluate_market_tie_break_selects_yes "q" 50 (Option.some 50) 10 ⟨9/10, 0, 0⟩
    (by norm_num [ev_yes_of, ev_no_of, normProbs, as_prob, calibrate])
    (by norm_num [ev_yes_of, ev_no_of, normProbs, as_prob, calibrate])

/-- C7 counterexample: at `yes_pct = 150` — outside `[0, 100]` —
`evaluate_market` does not reject the input: it normalizes 150 to the
out-of-range probability 1.5, proceeds, and returns a normal result
(side NO, expected value −100 dollars). -/
theorem evaluate_market_accepts_out_of_range_counterexample :
    (evaluate_market "q" 150 Option.none 100 ⟨9/10, 0, 0⟩).map
        (fun r => (r.p_yes_market, r.p_no_market, r.side, r.ev_dollars))
      = Except.ok (3/2, -1/2, "NO", -100) := by
  norm_num [evaluate_market, normProbs, as_prob, calibrate, sharesExpr_eq_ok, Except.map,
    pyround, roundHalfEven]

/-- C7 (amended): `evaluate_market` performs no precondition check on
probabilities: any `yes_pct > 100` is silently divided by 100 (yielding a
probability above 1) and the evaluation still returns a result built from
it instead of rejecting. -/
theorem evaluate_market_out_of_range_normalized (question : String) (yes_pct : ℚ)
    (stake : ℚ) (cfg : Config) (h : 100 < yes_pct) :
    (evaluate_market question yes_pct Option.none stake cfg).map EvalResult.p_yes_market
      = Except.ok (pyround (yes_pct / 100) 4) := by
  have h1 : (1:ℚ) < yes_pct := lt_trans (by norm_num) h
  have hnp : normProbs yes_pct Option.none = (yes_pct / 100, 1 - yes_pct / 100) := by
    simp only [normProbs, as_prob, if_pos h1]
    norm_num
  simp only [evaluate_market, hnp]
  split_ifs <;> simp [sharesExpr_eq_ok, Except.map]

/-- Witness for the amended C7 at `yes_pct = 150`. -/
theorem evaluate_market_out_of_range_normalized_witness :
    (evaluate_market "q" 150 Option.none 100 ⟨9/10, 0, 0⟩).map EvalResult.p_yes_market
      = Except.ok (pyround (150 / 100) 4) :=
  evaluate_market_out_of_range_normalized "q" 150 100 ⟨9/10, 0, 0⟩ (by norm_num)

/-- C8 counterexample: a strictly negative stake with a non-HOLD decision
does not produce 0-valued payouts: at `yes_pct = 62`, `stake = −10` the win
payout is −16.13 dollars, not 0. -/
theorem evaluate_market_negative_stake_counterexample :
    (evaluate_market "q" 62 Option.none (-10) ⟨9/10, 0, 0⟩).map
        (fun r => (r.side, r.win_payout_if_correct))
      = Except.ok ("YES", -1613/100) ∧ (-1613/100 : ℚ) ≠ 0 := by
  constructor
  · norm_num [evaluate_market, normProbs, as_prob, calibrate, sharesExpr_eq_ok, Except.map,
      pyround, roundHalfEven]
  · norm_num

/-- C8 (amended): a stake of exactly 0 is not rejected and produces 0-valued
payouts on every decision path (for a negative stake the win payout is
`stake / price` and can be negative). -/
theorem evaluate_market_zero_stake_zero_payouts (question : String) (yes_pct : ℚ)
    (no_pct : Option ℚ) (cfg : Config) :
    (evaluate_market question yes_pct no_pct 0 cfg).map
        (fun r => (r.win_payout_if_correct, r.lose_payout_if_wrong))
      = Except.ok (0, 0) := by
  simp only [evaluate_market]
  split_ifs <;>
    simp [sharesExpr_eq_ok, Except.map, pyround_zero, zero_div, ite_self]

/-- C9: a chosen price of exactly 0 yields 0 shares (the share expression is
guarded by `c > 0`, so the `ZeroDivisionError` branch of the division is
unreachable), and `evaluate_market` never returns an error on any input. -/
theorem evaluate_market_zero_price_defined :
    (∀ stake c : ℚ, c = 0 → sharesExpr stake c = Except.ok 0) ∧
    (∀ (question : String) (yes_pct : ℚ) (no_pct : Option ℚ) (stake : ℚ) (cfg : Config),
      (evaluate_market question yes_pct no_pct stake cfg).isOk = true) := by
  constructor
  · intro stake c hc
    rw [sharesExpr_eq_ok, hc]
    norm_num
  · intro question yes_pct no_pct stake cfg
    simp only [evaluate_market]
    split_ifs <;> simp [sharesExpr_eq_ok, Except.map, Except.isOk, Except.toBool]

/-- Witness for C9: shares at price 0 are 0, and an evaluation whose chosen
side YES has price 0 (`yes_pct = 0`) returns without error. -/
theorem evaluate_market_zero_price_defined_witness :
    sharesExpr 100 0 = Except.ok 0 ∧
    (evaluate_market "q" 0 Option.none 100 ⟨9/10, 0, 0⟩).isOk = true :=
  ⟨evaluate_market_zero_price_defined.1 100 0 rfl,
   evaluate_market_zero_price_defined.2 "q" 0 Option.none 100 ⟨9/10, 0, 0⟩⟩

/-- C10: on every non-HOLD decision the chosen side is the one whose
per-dollar EV is `max ev_per_yes ev_per_no`; that maximum is at least
`cfg.min_ev`, and it is the per-dollar EV the result reports. -/
theorem evaluate_market_chosen_side_max_ev (question : String) (yes_pct : ℚ)
    (no_pct : Option ℚ) (stake : ℚ) (cfg : Config)
    (hnot : ¬(ev_yes_of yes_pct no_pct cfg < cfg.min_ev ∧
              ev_no_of yes_pct no_pct cfg < cfg.min_ev)) :
    (if ev_yes_of yes_pct no_pct cfg ≥ ev_no_of yes_pct no_pct cfg then
        (evaluate_market question yes_pct no_pct stake cfg).map EvalResult.side
            = Except.ok "YES" ∧
        max (ev_yes_of yes_pct no_pct cfg) (ev_no_of yes_pct no_pct cfg)
            = ev_yes_of yes_pct no_pct cfg
      else
        (evaluate_market question yes_pct no_pct stake cfg).map EvalResult.side
            = Except.ok "NO" ∧
        max (ev_yes_of yes_pct no_pct cfg) (ev_no_of yes_pct no_pct cfg)
            = ev_no_of yes_pct no_pct cfg) ∧
    cfg.min_ev ≤ max (ev_yes_of yes_pct no_pct cfg) (ev_no_of yes_pct no_pct cfg) ∧
    (evaluate_market question yes_pct no_pct stake cfg).map EvalResult.ev_per_dollar
      = Except.ok (pyround (max (ev_yes_of yes_pct no_pct cfg) (ev_no_of yes_pct no_pct cfg)) 4) := by
  have hub : cfg.min_ev ≤ max (ev_yes_of yes_pct no_pct cfg) (ev_no_of yes_pct no_pct cfg) := by
    rcases not_and_or.mp hnot with h | h
    · exact le_trans (not_lt.mp h) (le_max_left _ _)
    · exact le_trans (not_lt.mp h) (le_max_right _ _)
  refine ⟨?_, hub, ?_⟩
  · split_ifs with hge
    · refine ⟨?_, max_eq_left hge⟩
      unfold ev_yes_of ev_no_of at hnot hge
      simp only [evaluate_market]
      rw [if_neg hnot, if_pos hge, sharesExpr_eq_ok]
      simp [Except.map]
    · refine ⟨?_, max_eq_right (le_of_not_le hge)⟩
      unfold ev_yes_of ev_no_of at hnot hge
      simp only [evaluate_market]
      rw [if_neg hnot, if_neg hge, sharesExpr_eq_ok]
      simp [Except.map]
  · rcases le_or_lt (ev_no_of yes_pct no_pct cfg) (ev_yes_of yes_pct no_pct cfg) with hge | hlt
    · have hmax := max_eq_left hge
      unfold ev_yes_of ev_no_of at hnot hge hmax ⊢
      simp only [evaluate_market]
      rw [if_neg hnot, if_pos hge, sharesExpr_eq_ok]
      simp [Except.map, hmax]
    · have hmax := max_eq_right hlt.le
      have hnge : ¬(ev_yes_of yes_pct no_pct cfg ≥ ev_no_of yes_pct no_pct cfg) := not_le.mpr hlt
      unfold ev_yes_of ev_no_of at hnot hnge hmax ⊢
      simp only [evaluate_market]
      rw [if_neg hnot, if_neg hnge, sharesExpr_eq_ok]
      simp [Except.map, hmax]

/-- Witness for C10 at `yes_pct = 62`, default config: the side is YES and
its EV (0.28) is the maximum and clears the threshold. -/
theorem evaluate_market_chosen_side_max_ev_witness :
    (if ev_yes_of 62 Option.none ⟨9/10, 0, 0⟩ ≥ ev_no_of 62 Option.none ⟨9/10, 0, 0⟩ then
        (evaluate_market "q" 62 Option.none 100 ⟨9/10, 0, 0⟩).map EvalResult.side
            = Except.ok "YES" ∧
        max (ev_yes_of 62 Option.none ⟨9/10, 0, 0⟩) (ev_no_of 62 Option.none ⟨9/10, 0, 0⟩)
            = ev_yes_of 62 Option.none ⟨9/10, 0, 0⟩
      else
        (evaluate_market "q" 62 Option.none 100 ⟨9/10, 0, 0⟩).map EvalResult.side
            = Except.ok "NO" ∧
        max (ev_yes_of 62 Option.none ⟨9/10, 0, 0⟩) (ev_no_of 62 Option.none ⟨9/10, 0, 0⟩)
            = ev_no_of 62 Option.none ⟨9/10, 0, 0⟩) ∧
    (Config.mk (9/10) 0 0).min_ev
      ≤ max (ev_yes_of 62 Option.none ⟨9/10, 0, 0⟩) (ev_no_of 62 Option.none ⟨9/10, 0, 0⟩) ∧
    (evaluate_market "q" 62 Option.none 100 ⟨9/10, 0, 0⟩).map EvalResult.ev_per_dollar
      = Except.ok
          (pyround (max (ev_yes_of 62 Option.none ⟨9/10, 0, 0⟩) (ev_no_of 62 Option.none ⟨9/10, 0, 0⟩)) 4) :=
  evaluate_market_chosen_side_max_ev "q" 62 Option.none 100 ⟨9/10, 0, 0⟩
    (by norm_num [ev_yes_of, ev_no_of, normProbs, as_prob, calibrate])

/-- C3 counterexample: for a market whose bulk quotes contain no Yes-side
value but do contain a No-side midpoint (0.3), the single-quote fetch for
the Yes identifier *is* performed (its guard fires before tier 4 is ever
consulted), and when that fetch returns a Yes midpoint of 0.9 the resolved
probability is 0.9, not `1 − 0.3`. -/
theorem summarize_single_fetch_counterexample :
    yes_single_fetch_triggered mQuoteCascade bulkNoMidOnly = true ∧
    (summarize_binary_market mQuoteCascade bulkNoMidOnly fetchYesMid).q_yes_mid
      = Option.some (9/10) ∧
    (Option.some (9/10) : Option ℚ) ≠ Option.some (1 - 3/10) := by
  refine ⟨by decide, rfl, ?_⟩
  intro h
  rw [Option.some_inj] at h
  norm_num at h

/-- C3 (amended): the single-quote fetcher for the Yes identifier is
invoked whenever that identifier exists and the bulk quotes hold no
Yes-side value at all — even when a No-side midpoint is present; tiers 1–3
are then retried against the fetched quotes, and the No-side midpoint `m`
yields `1 − m` only if that fetch also returned nothing. -/
theorem summarize_single_fetch_precedes_no_mid (m : MarketRec)
    (pm : List (String × Quotes)) (f : String → Quotes) (t1 t2 : String) (mq : ℚ)
    (houts : coerce_outcomes m.outcomes = Option.some ["Yes", "No"])
    (htids : parse_token_ids m.clobTokenIds = [t1, t2])
    (hbulkY : (pm.lookup t1).getD Quotes.empty = Quotes.empty)
    (hbulkN : ((pm.lookup t2).getD Quotes.empty).mid = Option.some mq)
    (hfetch : f t1 = Quotes.empty) :
    yes_single_fetch_triggered m pm = true ∧
    (summarize_binary_market m pm f).q_yes_mid = Option.some (1 - mq) := by
  have hc : canonical_outs_tids m = (["Yes", "No"], [t1, t2]) := by
    simp only [canonical_outs_tids]
    rw [houts, htids]
    show (if lowerStr "Yes" = "no" ∧ lowerStr "No" = "yes" then (["No", "Yes"], [t2, t1])
          else (["Yes", "No"], [t1, t2])) = (["Yes", "No"], [t1, t2])
    rw [if_neg (by decide)]
  constructor
  · simp [yes_single_fetch_triggered, hc, hbulkY, Quotes.empty_buy, Quotes.empty_sell,
      Quotes.empty_mid]
  · simp [summarize_binary_market, hc, hbulkY, hbulkN, hfetch, Quotes.empty_buy,
      Quotes.empty_sell, Quotes.empty_mid]

/-- Witness for the amended C3: empty bulk Yes quotes, No midpoint 0.3, and
a single fetch returning nothing give trigger = true and
`q_yes_mid = 1 − 0.3`. -/
theorem summarize_single_fetch_precedes_no_mid_witness :
    yes_single_fetch_triggered
        { outcomes := Option.some ["Yes", "No"], clobTokenIds := Option.some ["yt", "nt"] }
        [("nt", { mid := Option.some (3/10) })] = true ∧
    (summarize_binary_market
        { outcomes := Option.some ["Yes", "No"], clobTokenIds := Option.some ["yt", "nt"] }
        [("nt", { mid := Option.some (3/10) })] (fun _ => Quotes.empty)).q_yes_mid
      = Option.some (1 - 3/10) :=
  summarize_single_fetch_precedes_no_mid
    { outcomes := Option.some ["Yes", "No"], clobTokenIds := Option.some ["yt", "nt"] }
    [("nt", { mid := Option.some (3/10) })] (fun _ => Quotes.empty) "yt" "nt" (3/10)
    (by decide) (by decide) rfl rfl rfl

/-- C6 counterexample: the record with outcomes `["N", "Y"]` (No-like alias
listed first) and identifiers `["tokA", "tokB"]` is binary-eligible, yet
classification does *not* swap: the Yes position keeps `tokA`, the
identifier paired with the No-like label. -/
theorem summarize_alias_no_first_counterexample :
    is_binary_yes_no mAliasNY = true ∧
    (summarize_binary_market mAliasNY [] (fun _ => Quotes.empty)).yes_token_id
      = Option.some "tokA" ∧
    (summarize_binary_market mAliasNY [] (fun _ => Quotes.empty)).no_token_id
      = Option.some "tokB" ∧
    (Option.some "tokA" : Option String) ≠ Option.some "tokB" := by
  exact ⟨by decide, rfl, rfl, by decide⟩

/-- C6 (amended): the atomic label-and-identifier swap applies exactly to
records whose coerced labels compare lower-case equal to `["no", "yes"]`
(the literal No/Yes pair, not the other aliases): with identifiers
`[t1, t2]` the canonical pair becomes `(Yes = t2, No = t1)`. -/
theorem summarize_swaps_literal_no_yes (m : MarketRec) (pm : List (String × Quotes))
    (f : String → Quotes) (a b t1 t2 : String)
    (houts : coerce_outcomes m.outcomes = Option.some [a, b])
    (ha : lowerStr a = "no") (hb : lowerStr b = "yes")
    (htids : parse_token_ids m.clobTokenIds = [t1, t2]) :
    (summarize_binary_market m pm f).yes_token_id = Option.some t2 ∧
    (summarize_binary_market m pm f).no_token_id = Option.some t1 := by
  have hc : canonical_outs_tids m = ([b, a], [t2, t1]) := by
    simp only [canonical_outs_tids]
    rw [houts, htids]
    show (if lowerStr a = "no" ∧ lowerStr b = "yes" then ([b, a], [t2, t1]) else ([a, b], [t1, t2]))
        = ([b, a], [t2, t1])
    rw [if_pos ⟨ha, hb⟩]
  constructor <;> simp [summarize_binary_market, hc]

/-- Witness for the amended C6: outcomes `["No", "Yes"]` with identifiers
`["tokA", "tokB"]` classify to `(Yes = tokB, No = tokA)`. -/
theorem summarize_swaps_literal_no_yes_witness :
    (summarize_binary_market
        { outcomes := Option.some ["No", "Yes"], clobTokenIds := Option.some ["tokA", "tokB"] }
        [] (fun _ => Quotes.empty)).yes_token_id = Option.some "tokB" ∧
    (summarize_binary_market
        { outcomes := Option.some ["No", "Yes"], clobTokenIds := Option.some ["tokA", "tokB"] }
        [] (fun _ => Quotes.empty)).no_token_id = Option.some "tokA" :=
  summarize_swaps_literal_no_yes
    { outcomes := Option.some ["No", "Yes"], clobTokenIds := Option.some ["tokA", "tokB"] }
    [] (fun _ => Quotes.empty) "No" "Yes" "tokA" "tokB"
    (by decide) (by decide) (by decide) (by decide)

end BeatPolymarket
